import Mathlib

/-!
Shallow embedding of the `solana-liq-pool` program (`src/lib.rs`), a
constant-product two-asset liquidity pool.  Machine integers (`u64`, `u128`)
are modelled as `Nat` with explicit `% 2 ^ 64` at every `as u64` cast and
explicit bound checks mirroring `checked_add` / `checked_sub` / `checked_mul`
/ `checked_div`.  Public keys are modelled as `Nat`.  External spl-token
calls (`invoke` / `invoke_signed`) are modelled by boolean oracles: `true`
means the external ledger accepted the request, `false` that it rejected it.
Each handler takes the pool-record storage (`Option PoolRecord`, `none`
meaning the account data is empty) and returns the result together with the
storage after the call; the storage is replaced only at the point where the
source serializes the record.
-/

/-- The persisted `LiquidityPool` record (`struct LiquidityPool`).
`liquidity_supply`, `token_a_reserve`, `token_b_reserve` are `u64` in the
source; the identity fields are `Pubkey`s. -/
structure PoolRecord where
  authority : Nat
  token_a_mint : Nat
  token_b_mint : Nat
  token_a_vault : Nat
  token_b_vault : Nat
  liquidity_mint : Nat
  liquidity_supply : Nat
  token_a_reserve : Nat
  token_b_reserve : Nat
deriving Repr, DecidableEq

/-- Errors a handler can return.  The first eight mirror
`enum LiquidityPoolError`; `NotEnoughAccountKeys` is the `ProgramError`
returned by `next_account_info` on an exhausted account iterator;
`DeserializeFailed` models `try_from_slice` failing on empty account data;
`ExternalCallFailed` models the external token ledger rejecting an
`invoke`/`invoke_signed` request. -/
inductive PoolError where
  | InvalidAccount
  | AlreadyInitialized
  | NotInitialized
  | InvalidAmount
  | InsufficientLiquidity
  | ArithmeticOverflow
  | InvalidTokenPair
  | Unauthorized
  | NotEnoughAccountKeys
  | DeserializeFailed
  | ExternalCallFailed
deriving Repr, DecidableEq

/-- Metadata of one entry of the account list (`AccountInfo`).  `mint` is the
mint field obtained by unpacking the account as an spl-token account
(`spl_token::state::Account::unpack(..).mint`); the data of the pool-record
account is passed to the handlers separately as the storage argument. -/
structure Account where
  key : Nat
  owner : Nat
  is_writable : Bool
  is_signer : Bool
  mint : Nat
deriving Repr, DecidableEq

/-- The canonical spl-token program id (`spl_token::id()`), an arbitrary but
fixed distinguished key. -/
def spl_token_id : Nat := 901

/-- The system program id (`solana_program::system_program::ID`). -/
def system_program_id : Nat := 902

/-- Models `u64::checked_add`. -/
def checkedAdd64 (a b : Nat) : Option Nat :=
  if a + b < 2 ^ 64 then some (a + b) else none

/-- Models `u64::checked_sub` (also correct for `u128`: only underflow can fail). -/
def checkedSub (a b : Nat) : Option Nat :=
  if b ≤ a then some (a - b) else none

/-- Models `u64::checked_mul`. -/
def checkedMul64 (a b : Nat) : Option Nat :=
  if a * b < 2 ^ 64 then some (a * b) else none

/-- Models `u64::checked_div`: fails only on a zero divisor. -/
def checkedDiv (a b : Nat) : Option Nat :=
  if b = 0 then none else some (a / b)

/-- The result of one handler call: the `ProgramResult` together with the
pool-record storage after the call. -/
abbrev HandlerResult := Except PoolError Unit × Option PoolRecord

/-- The handler epilogue shared by all four operations: every handler's last
statement, and its only write to the pool-record account, is
`pool.serialize(&mut *pool_state.data.borrow_mut())` — so a successful run
replaces the storage with the computed record, and any error leaves the
storage untouched. -/
def commit (res : Except PoolError PoolRecord)
    (storage : Option PoolRecord) : HandlerResult :=
  match res with
  | .error e => (.error e, storage)
  | .ok pool => (.ok (), some pool)

/-- Embeds `initialize_pool` (src/lib.rs:82-151).  The account list is, in
order: pool_state, authority, token_a_mint, token_b_mint, token_a_vault,
token_b_vault, liquidity_mint, token_program.  Note that the source performs
no signer check in this handler, and checks `data_is_empty` only after all
account validations. -/
def initPoolCore (program_id : Nat) (accounts : List Account)
    (storage : Option PoolRecord) : Except PoolError PoolRecord :=
  match accounts with
  | pool_state :: authority :: token_a_mint :: token_b_mint :: token_a_vault ::
      token_b_vault :: liquidity_mint :: token_program :: _ =>
    if ¬ pool_state.is_writable then .error .InvalidAccount
    else if pool_state.owner ≠ program_id ∧ pool_state.owner ≠ system_program_id then
      .error .InvalidAccount
    else if authority.is_writable then .error .InvalidAccount
    else if token_a_mint.owner ≠ token_program.key ∨ token_b_mint.owner ≠ token_program.key then
      .error .InvalidAccount
    else if token_a_mint.key = token_b_mint.key then .error .InvalidAmount
    else if token_a_vault.owner ≠ token_program.key ∨ token_b_vault.owner ≠ token_program.key then
      .error .InvalidAccount
    else if ¬ token_a_vault.is_writable ∨ ¬ token_b_vault.is_writable then
      .error .InvalidAccount
    else if token_program.key ≠ spl_token_id then .error .InvalidAccount
    else if storage.isSome then .error .AlreadyInitialized
    else
      .ok
        { authority := authority.key
          token_a_mint := token_a_mint.key
          token_b_mint := token_b_mint.key
          token_a_vault := token_a_vault.key
          token_b_vault := token_b_vault.key
          liquidity_mint := liquidity_mint.key
          liquidity_supply := 0
          token_a_reserve := 0
          token_b_reserve := 0 }
  | _ => .error .NotEnoughAccountKeys

/-- The `liquidity_to_mint` computation of `add_liquidity`
(src/lib.rs:213-220), a `u128` value.  On a first deposit it is the floor
integer square root of `amount_a × amount_b`; afterwards the minimum of the
two proportional contributions.  The source divides `u128` values without a
zero-divisor guard; `Nat` division yields 0 at a zero reserve where the
source would panic. -/
def sharesToMint (pool : PoolRecord) (amount_a amount_b : Nat) : Nat :=
  if pool.liquidity_supply = 0 then
    Nat.sqrt (amount_a * amount_b)
  else
    min (amount_a * pool.liquidity_supply / pool.token_a_reserve)
        (amount_b * pool.liquidity_supply / pool.token_b_reserve)

/-- Embeds `add_liquidity` (src/lib.rs:153-274).  Account order: pool_state,
user_token_a, user_token_b, token_a_vault, token_b_vault, liquidity_mint,
user_liquidity, token_program, user.  `e1`, `e2`, `e3` are the outcomes of
the three external-ledger requests (transfer A, transfer B, mint shares), in
source order.  The `liquidity_to_mint as u64` cast is the `% 2 ^ 64`. -/
def addLiquidityCore (program_id : Nat) (accounts : List Account)
    (amount_a amount_b : Nat) (e1 e2 e3 : Bool)
    (storage : Option PoolRecord) : Except PoolError PoolRecord :=
  match accounts with
  | pool_state :: user_token_a :: user_token_b :: token_a_vault :: token_b_vault ::
      liquidity_mint :: user_liquidity :: token_program :: user :: _ =>
    if ¬ pool_state.is_writable then .error .InvalidAccount
    else if pool_state.owner ≠ program_id then .error .InvalidAccount
    else if ¬ user_token_a.is_writable ∨ user_token_a.owner ≠ token_program.key then
      .error .InvalidAccount
    else if ¬ user_token_b.is_writable ∨ user_token_b.owner ≠ token_program.key then
      .error .InvalidAccount
    else if ¬ token_a_vault.is_writable ∨ token_a_vault.owner ≠ token_program.key then
      .error .InvalidAccount
    else if ¬ token_b_vault.is_writable ∨ token_b_vault.owner ≠ token_program.key then
      .error .InvalidAccount
    else if ¬ liquidity_mint.is_writable ∨ liquidity_mint.owner ≠ token_program.key then
      .error .InvalidAccount
    else if ¬ user_liquidity.is_writable ∨ user_liquidity.owner ≠ token_program.key then
      .error .InvalidAccount
    else if token_program.key ≠ spl_token_id then .error .InvalidAccount
    else if ¬ user.is_signer then .error .Unauthorized
    else
      match storage with
      | none => .error .DeserializeFailed
      | some pool =>
        if pool.token_a_vault ≠ token_a_vault.key ∨ pool.token_b_vault ≠ token_b_vault.key then
          .error .InvalidAccount
        else if pool.token_a_mint ≠ user_token_a.mint ∨ pool.token_b_mint ≠ user_token_b.mint then
          .error .InvalidAccount
        else if amount_a = 0 ∨ amount_b = 0 then .error .InvalidAmount
        else if sharesToMint pool amount_a amount_b = 0 then .error .InvalidAmount
        else if ¬ e1 then .error .ExternalCallFailed
        else if ¬ e2 then .error .ExternalCallFailed
        else if ¬ e3 then .error .ExternalCallFailed
        else
          match checkedAdd64 pool.token_a_reserve amount_a with
          | none => .error .ArithmeticOverflow
          | some ra =>
            match checkedAdd64 pool.token_b_reserve amount_b with
            | none => .error .ArithmeticOverflow
            | some rb =>
              match checkedAdd64 pool.liquidity_supply
                  (sharesToMint pool amount_a amount_b % 2 ^ 64) with
              | none => .error .ArithmeticOverflow
              | some s =>
                .ok { pool with
                  token_a_reserve := ra
                  token_b_reserve := rb
                  liquidity_supply := s }
  | _ => .error .NotEnoughAccountKeys

/-- Embeds `remove_liquidty` (src/lib.rs:276-384).  Account order:
pool_state, user_liquidity, token_a_vault, token_b_vault, user_token_a,
user_token_b, liquidity_mint, user, token_program.  `e1`, `e2`, `e3` are the
outcomes of the burn and the two vault-to-user transfers.  The `as u64`
casts of the redemption amounts are the `% 2 ^ 64`. -/
def removeLiquidityCore (program_id : Nat) (accounts : List Account)
    (liquidity_amount : Nat) (e1 e2 e3 : Bool)
    (storage : Option PoolRecord) : Except PoolError PoolRecord :=
  match accounts with
  | pool_state :: user_liquidity :: token_a_vault :: token_b_vault :: user_token_a ::
      user_token_b :: liquidity_mint :: user :: token_program :: _ =>
    if ¬ pool_state.is_writable ∨ pool_state.owner ≠ program_id then
      .error .InvalidAccount
    else if ¬ user_liquidity.is_writable ∨ user_liquidity.owner ≠ token_program.key then
      .error .InvalidAccount
    else if ¬ token_a_vault.is_writable ∨ token_a_vault.owner ≠ token_program.key then
      .error .InvalidAccount
    else if ¬ token_b_vault.is_writable ∨ token_b_vault.owner ≠ token_program.key then
      .error .InvalidAccount
    else if ¬ user_token_a.is_writable ∨ user_token_a.owner ≠ token_program.key then
      .error .InvalidAccount
    else if ¬ user_token_b.is_writable ∨ user_token_b.owner ≠ token_program.key then
      .error .InvalidAccount
    else if ¬ liquidity_mint.is_writable ∨ liquidity_mint.owner ≠ token_program.key then
      .error .InvalidAccount
    else if token_program.key ≠ spl_token_id then .error .InvalidAccount
    else if ¬ user.is_signer then .error .Unauthorized
    else
      match storage with
      | none => .error .DeserializeFailed
      | some pool =>
        if liquidity_amount = 0 ∨ pool.liquidity_supply < liquidity_amount then
          .error .InvalidAmount
        else
          let amount_a :=
            liquidity_amount * pool.token_a_reserve / pool.liquidity_supply % 2 ^ 64
          let amount_b :=
            liquidity_amount * pool.token_b_reserve / pool.liquidity_supply % 2 ^ 64
          if amount_a = 0 ∨ amount_b = 0 then .error .InvalidAmount
          else if ¬ e1 then .error .ExternalCallFailed
          else if ¬ e2 then .error .ExternalCallFailed
          else if ¬ e3 then .error .ExternalCallFailed
          else
            match checkedSub pool.token_a_reserve amount_a with
            | none => .error .ArithmeticOverflow
            | some ra =>
              match checkedSub pool.token_b_reserve amount_b with
              | none => .error .ArithmeticOverflow
              | some rb =>
                match checkedSub pool.liquidity_supply liquidity_amount with
                | none => .error .ArithmeticOverflow
                | some s =>
                  .ok { pool with
                    token_a_reserve := ra
                    token_b_reserve := rb
                    liquidity_supply := s }
  | _ => .error .NotEnoughAccountKeys

/-- The swap fee computation (src/lib.rs:460-463):
`amount_in × (10000 − 30) / 10000`, floors. -/
def amountInAfterFee (amount_in : Nat) : Nat :=
  amount_in * (10000 - 30) / 10000

/-- The divisor of the swap's unguarded `u128` division
(src/lib.rs:467-469).  The source calls it `new_input_reserve` but computes
`input_reserve × amount_in_after_fee`, a product — not the sum
`input_reserve + amount_in_after_fee` that a constant-product swap requires.
It is zero whenever the input reserve is zero or `amount_in ≤ 1` (a fee of
30 basis points floors any `amount_in ≤ 1` to zero). -/
def swapDivisor (input_reserve amount_in : Nat) : Nat :=
  input_reserve * amountInAfterFee amount_in

/-- Embeds `swap` (src/lib.rs:386-519).  Account order: pool_state,
user_input_token, user_output_token, input_vault, output_vault,
token_program, user.  `e1` is the outcome of the user-to-vault input
transfer: the source binds that `invoke_signed` result to `_`, so a failure
there is discarded and execution continues — `e1` has no effect.  `e2` is
the outcome of the vault-to-user output transfer.  Note the direction check
compares the pool's mints against the user token accounts' keys (the source
compares `pool.token_a_mint` with `*user_input_token.key`), and the division
`invariant / new_input_reserve` is unguarded `u128` division: `Nat` division
yields 0 at a zero divisor where the source panics. -/
def swapCore (program_id : Nat) (accounts : List Account)
    (amount_in : Nat) (a_to_b : Bool) (_e1 e2 : Bool)
    (storage : Option PoolRecord) : Except PoolError PoolRecord :=
  match accounts with
  | pool_state :: user_input_token :: user_output_token :: input_vault :: output_vault ::
      token_program :: user :: _ =>
    if ¬ pool_state.is_writable ∨ pool_state.owner ≠ program_id then
      .error .InvalidAccount
    else if ¬ user_input_token.is_writable ∨ user_input_token.owner ≠ token_program.key then
      .error .InvalidAccount
    else if ¬ user_output_token.is_writable ∨ user_output_token.owner ≠ token_program.key then
      .error .InvalidAccount
    else if ¬ input_vault.is_writable ∨ input_vault.owner ≠ token_program.key then
      .error .InvalidAccount
    else if ¬ output_vault.is_writable ∨ output_vault.owner ≠ token_program.key then
      .error .InvalidAccount
    else if token_program.key ≠ spl_token_id then .error .InvalidAccount
    else if ¬ user.is_signer then .error .Unauthorized
    else
      match storage with
      | none => .error .DeserializeFailed
      | some pool =>
        if (if a_to_b then
              pool.token_a_vault ≠ input_vault.key ∨ pool.token_b_vault ≠ output_vault.key
            else
              pool.token_b_vault ≠ input_vault.key ∨ pool.token_a_vault ≠ output_vault.key) then
          .error .InvalidAccount
        else if (if a_to_b then
              pool.token_a_mint ≠ user_input_token.key ∨ pool.token_b_mint ≠ user_output_token.key
            else
              pool.token_b_mint ≠ user_input_token.key ∨ pool.token_a_mint ≠ user_output_token.key) then
          .error .InvalidAccount
        else if amount_in = 0 then .error .InvalidAmount
        else
          let input_reserve := if a_to_b then pool.token_a_reserve else pool.token_b_reserve
          let output_reserve := if a_to_b then pool.token_b_reserve else pool.token_a_reserve
          match checkedMul64 amount_in (10000 - 30) with
          | none => .error .ArithmeticOverflow
          | some m =>
            match checkedDiv m 10000 with
            | none => .error .ArithmeticOverflow
            | some amount_in_after_fee =>
              let invariant := input_reserve * output_reserve
              let new_input_reserve := input_reserve * amount_in_after_fee
              let q := invariant / new_input_reserve
              if 2 ^ 64 ≤ q then .error .ArithmeticOverflow
              else
                match checkedSub output_reserve q with
                | none => .error .ArithmeticOverflow
                | some amount_out =>
                  if amount_out = 0 then .error .InvalidAmount
                  else if ¬ e2 then .error .ExternalCallFailed
                  else if a_to_b then
                    match checkedAdd64 pool.token_a_reserve amount_in with
                    | none => .error .ArithmeticOverflow
                    | some ra =>
                      match checkedSub pool.token_b_reserve amount_out with
                      | none => .error .ArithmeticOverflow
                      | some rb =>
                        .ok { pool with
                          token_a_reserve := ra, token_b_reserve := rb }
                  else
                    match checkedAdd64 pool.token_b_reserve amount_in with
                    | none => .error .ArithmeticOverflow
                    | some rb =>
                      match checkedSub pool.token_a_reserve amount_out with
                      | none => .error .ArithmeticOverflow
                      | some ra =>
                        .ok { pool with
                          token_a_reserve := ra, token_b_reserve := rb }
  | _ => .error .NotEnoughAccountKeys


/-- Embeds `initialize_pool` as invoked: the validation/computation core
followed by the trailing serialize. -/
def initPool (program_id : Nat) (accounts : List Account)
    (storage : Option PoolRecord) : HandlerResult :=
  commit (initPoolCore program_id accounts storage) storage

/-- Embeds `add_liquidity` as invoked: core followed by the trailing
serialize. -/
def addLiquidity (program_id : Nat) (accounts : List Account)
    (amount_a amount_b : Nat) (e1 e2 e3 : Bool)
    (storage : Option PoolRecord) : HandlerResult :=
  commit (addLiquidityCore program_id accounts amount_a amount_b e1 e2 e3 storage) storage

/-- Embeds `remove_liquidty` as invoked: core followed by the trailing
serialize. -/
def removeLiquidity (program_id : Nat) (accounts : List Account)
    (liquidity_amount : Nat) (e1 e2 e3 : Bool)
    (storage : Option PoolRecord) : HandlerResult :=
  commit (removeLiquidityCore program_id accounts liquidity_amount e1 e2 e3 storage) storage

/-- Embeds `swap` as invoked: core followed by the trailing serialize. -/
def swap (program_id : Nat) (accounts : List Account)
    (amount_in : Nat) (a_to_b : Bool) (e1 e2 : Bool)
    (storage : Option PoolRecord) : HandlerResult :=
  commit (swapCore program_id accounts amount_in a_to_b e1 e2 storage) storage

/-- The decoded `enum PoolInstruction`. -/
inductive PoolInstruction where
  | InitializePool
  | AddLiquidity (amount_a amount_b : Nat)
  | RemoveLiquidity (liquidity_amount : Nat)
  | Swap (amount_in : Nat) (a_to_b : Bool)
deriving Repr, DecidableEq

/-- Models `next_account_info`: takes the next account off the iterator, failing
with `NotEnoughAccountKeys` when it is exhausted. -/
def nextAccountInfo (l : List Account) : Except PoolError (Account × List Account) :=
  match l with
  | [] => .error .NotEnoughAccountKeys
  | a :: r => .ok (a, r)

/-- The account reads `process_instruction` performs before dispatching
(src/lib.rs:54-64): nine `next_account_info` calls, all but the sixth
followed by `?`.  The sixth call's `Result` is bound without `?`
(src/lib.rs:61), so its failure is discarded; on failure the iterator is
unchanged.  Returns the remaining iterator on success. -/
def dispatchAccountReads (accounts : List Account) : Except PoolError (List Account) := do
  let (_, r1) ← nextAccountInfo accounts
  let (_, r2) ← nextAccountInfo r1
  let (_, r3) ← nextAccountInfo r2
  let (_, r4) ← nextAccountInfo r3
  let (_, r5) ← nextAccountInfo r4
  let r6 := match nextAccountInfo r5 with
    | .ok (_, r) => r
    | .error _ => r5
  let (_, r7) ← nextAccountInfo r6
  let (_, r8) ← nextAccountInfo r7
  let (_, r9) ← nextAccountInfo r8
  pure r9

/-- Embeds `process_instruction` (src/lib.rs:53-79, 521-522): the nine
prelude account reads, then dispatch of the decoded instruction to the
matching handler (each handler re-iterates the account list from the start).
The external-call oracles `e1 e2 e3` are passed through to the handler. -/
def processInstruction (program_id : Nat) (accounts : List Account)
    (instr : PoolInstruction) (e1 e2 e3 : Bool)
    (storage : Option PoolRecord) : HandlerResult :=
  match dispatchAccountReads accounts with
  | .error e => (.error e, storage)
  | .ok _ =>
    match instr with
    | .InitializePool => initPool program_id accounts storage
    | .AddLiquidity amount_a amount_b =>
        addLiquidity program_id accounts amount_a amount_b e1 e2 e3 storage
    | .RemoveLiquidity liquidity_amount =>
        removeLiquidity program_id accounts liquidity_amount e1 e2 e3 storage
    | .Swap amount_in a_to_b =>
        swap program_id accounts amount_in a_to_b e1 e2 storage

/-! Concrete fixtures used by witnesses, counterexamples and evaluations:
one program id, one pool record, and the matching account lists for each
operation. -/

/-- A concrete program id. -/
def pid0 : Nat := 7

/-- A concrete pool record with both reserves at 1000 and supply 1000. -/
def poolA : PoolRecord :=
  { authority := 20, token_a_mint := 21, token_b_mint := 22
    token_a_vault := 23, token_b_vault := 24, liquidity_mint := 25
    liquidity_supply := 1000, token_a_reserve := 1000, token_b_reserve := 1000 }

/-- The pool-record account: writable, owned by the program. -/
def acPool : Account :=
  { key := 10, owner := pid0, is_writable := true, is_signer := false, mint := 0 }

/-- A non-writable authority reference account. -/
def acAuth : Account :=
  { key := 20, owner := pid0, is_writable := false, is_signer := false, mint := 0 }

/-- Mint A: owned by the spl-token program. -/
def acMintA : Account :=
  { key := 21, owner := spl_token_id, is_writable := false, is_signer := false, mint := 0 }

/-- Mint B: owned by the spl-token program. -/
def acMintB : Account :=
  { key := 22, owner := spl_token_id, is_writable := false, is_signer := false, mint := 0 }

/-- Vault A: writable spl-token account, key matching `poolA.token_a_vault`. -/
def acVaultA : Account :=
  { key := 23, owner := spl_token_id, is_writable := true, is_signer := false, mint := 21 }

/-- Vault B: writable spl-token account, key matching `poolA.token_b_vault`. -/
def acVaultB : Account :=
  { key := 24, owner := spl_token_id, is_writable := true, is_signer := false, mint := 22 }

/-- The liquidity-share mint account. -/
def acLiqMint : Account :=
  { key := 25, owner := spl_token_id, is_writable := true, is_signer := false, mint := 0 }

/-- The spl-token program account. -/
def acTokenProg : Account :=
  { key := spl_token_id, owner := 0, is_writable := false, is_signer := false, mint := 0 }

/-- The initiating user, signer flag set. -/
def acUser : Account :=
  { key := 30, owner := 0, is_writable := false, is_signer := true, mint := 0 }

/-- The user's token-A account (mint field matching `poolA.token_a_mint`).
Its key is `poolA.token_a_mint` so that `swap`'s key-based mint comparison
also passes in direction `a_to_b`. -/
def acUserTokA : Account :=
  { key := 21, owner := spl_token_id, is_writable := true, is_signer := false, mint := 21 }

/-- The user's token-B account (mint field matching `poolA.token_b_mint`),
key likewise `poolA.token_b_mint`. -/
def acUserTokB : Account :=
  { key := 22, owner := spl_token_id, is_writable := true, is_signer := false, mint := 22 }

/-- The user's liquidity-share token account. -/
def acUserLiq : Account :=
  { key := 31, owner := spl_token_id, is_writable := true, is_signer := false, mint := 25 }

/-- A valid 8-entry account list for `initPool`. -/
def initAccts : List Account :=
  [acPool, acAuth, acMintA, acMintB, acVaultA, acVaultB, acLiqMint, acTokenProg]

/-- A valid 9-entry account list for `addLiquidity` on `poolA`. -/
def addAccts : List Account :=
  [acPool, acUserTokA, acUserTokB, acVaultA, acVaultB, acLiqMint, acUserLiq,
   acTokenProg, acUser]

/-- A valid 9-entry account list for `removeLiquidity` on `poolA`. -/
def removeAccts : List Account :=
  [acPool, acUserLiq, acVaultA, acVaultB, acUserTokA, acUserTokB, acLiqMint,
   acUser, acTokenProg]

/-- A valid 7-entry account list for `swap` on `poolA` in direction `a_to_b`. -/
def swapAccts : List Account :=
  [acPool, acUserTokA, acUserTokB, acVaultA, acVaultB, acTokenProg, acUser]

/-- The record `poolA` with zero reserves and zero supply: a freshly
initialized pool. -/
def pool0 : PoolRecord :=
  { poolA with liquidity_supply := 0, token_a_reserve := 0, token_b_reserve := 0 }

/-- A pool whose share supply exceeds both reserves (supply 2, reserves 1/1). -/
def poolTiny : PoolRecord :=
  { poolA with liquidity_supply := 2, token_a_reserve := 1, token_b_reserve := 1 }

/-- The pool `poolA` with the token-A reserve drained to zero. -/
def poolB : PoolRecord := { poolA with token_a_reserve := 0 }

/-- The account checks `add_liquidity` performs before its signer check
(src/lib.rs:166-192): writability and ownership of the eight non-signer
accounts and the spl-token program identity. -/
@[reducible] def AddPreSignerOk (program_id : Nat)
    (pool_state user_token_a user_token_b token_a_vault token_b_vault
     liquidity_mint user_liquidity token_program : Account) : Prop :=
  pool_state.is_writable = true ∧ pool_state.owner = program_id ∧
  user_token_a.is_writable = true ∧ user_token_a.owner = token_program.key ∧
  user_token_b.is_writable = true ∧ user_token_b.owner = token_program.key ∧
  token_a_vault.is_writable = true ∧ token_a_vault.owner = token_program.key ∧
  token_b_vault.is_writable = true ∧ token_b_vault.owner = token_program.key ∧
  liquidity_mint.is_writable = true ∧ liquidity_mint.owner = token_program.key ∧
  user_liquidity.is_writable = true ∧ user_liquidity.owner = token_program.key ∧
  token_program.key = spl_token_id

/-- All account validations of `add_liquidity` (src/lib.rs:166-207): the
pre-signer checks, the user signer flag, the pool's stored vault identities
matching the supplied vaults, and the pool's mints matching the mint fields
of the user's token accounts. -/
@[reducible] def AddAccountsOk (program_id : Nat)
    (pool_state user_token_a user_token_b token_a_vault token_b_vault
     liquidity_mint user_liquidity token_program user : Account)
    (pool : PoolRecord) : Prop :=
  AddPreSignerOk program_id pool_state user_token_a user_token_b token_a_vault
    token_b_vault liquidity_mint user_liquidity token_program ∧
  user.is_signer = true ∧
  pool.token_a_vault = token_a_vault.key ∧ pool.token_b_vault = token_b_vault.key ∧
  pool.token_a_mint = user_token_a.mint ∧ pool.token_b_mint = user_token_b.mint

/-- The account checks `remove_liquidty` performs before its signer check
(src/lib.rs:289-314). -/
@[reducible] def RemovePreSignerOk (program_id : Nat)
    (pool_state user_liquidity token_a_vault token_b_vault user_token_a
     user_token_b liquidity_mint token_program : Account) : Prop :=
  pool_state.is_writable = true ∧ pool_state.owner = program_id ∧
  user_liquidity.is_writable = true ∧ user_liquidity.owner = token_program.key ∧
  token_a_vault.is_writable = true ∧ token_a_vault.owner = token_program.key ∧
  token_b_vault.is_writable = true ∧ token_b_vault.owner = token_program.key ∧
  user_token_a.is_writable = true ∧ user_token_a.owner = token_program.key ∧
  user_token_b.is_writable = true ∧ user_token_b.owner = token_program.key ∧
  liquidity_mint.is_writable = true ∧ liquidity_mint.owner = token_program.key ∧
  token_program.key = spl_token_id

/-- All account validations of `remove_liquidty`: the pre-signer checks and
the user signer flag (the source checks no vault identity against the pool
record in this handler). -/
@[reducible] def RemoveAccountsOk (program_id : Nat)
    (pool_state user_liquidity token_a_vault token_b_vault user_token_a
     user_token_b liquidity_mint user token_program : Account) : Prop :=
  RemovePreSignerOk program_id pool_state user_liquidity token_a_vault
    token_b_vault user_token_a user_token_b liquidity_mint token_program ∧
  user.is_signer = true

/-- The account checks `swap` performs before its signer check
(src/lib.rs:398-420). -/
@[reducible] def SwapPreSignerOk (program_id : Nat)
    (pool_state user_input_token user_output_token input_vault output_vault
     token_program : Account) : Prop :=
  pool_state.is_writable = true ∧ pool_state.owner = program_id ∧
  user_input_token.is_writable = true ∧ user_input_token.owner = token_program.key ∧
  user_output_token.is_writable = true ∧ user_output_token.owner = token_program.key ∧
  input_vault.is_writable = true ∧ input_vault.owner = token_program.key ∧
  output_vault.is_writable = true ∧ output_vault.owner = token_program.key ∧
  token_program.key = spl_token_id

/-- The account validations of `initialize_pool` (src/lib.rs:97-128): pool
account writable and owned by the program or the system program, authority
not writable, both mints and both vaults owned by the token program, the two
mints distinct, both vaults writable, and the token program being the
canonical spl-token program.  No signer flag is checked. -/
@[reducible] def InitAccountChecksOk (program_id : Nat)
    (pool_state authority token_a_mint token_b_mint token_a_vault token_b_vault
     token_program : Account) : Prop :=
  pool_state.is_writable = true ∧
  (pool_state.owner = program_id ∨ pool_state.owner = system_program_id) ∧
  authority.is_writable = false ∧
  token_a_mint.owner = token_program.key ∧ token_b_mint.owner = token_program.key ∧
  token_a_mint.key ≠ token_b_mint.key ∧
  token_a_vault.owner = token_program.key ∧ token_b_vault.owner = token_program.key ∧
  token_a_vault.is_writable = true ∧ token_b_vault.is_writable = true ∧
  token_program.key = spl_token_id

/-- C3: every `AddLiquidity` with positive 64-bit amounts on a pool whose
share supply is zero (hence, by the data-model invariant, both reserves are
zero) mints exactly `⌊√(amount_a × amount_b)⌋` shares, computed on the
128-bit product, and adds exactly that number to `liquidity_supply`, while
the reserves become the deposited amounts. -/
theorem C3_first_deposit_sqrt (program_id : Nat)
    (ps uta utb va vb lm ul tp user : Account) (rest : List Account)
    (pool : PoolRecord) (amount_a amount_b : Nat)
    (hacc : AddAccountsOk program_id ps uta utb va vb lm ul tp user pool)
    (hsup : pool.liquidity_supply = 0)
    (hra : pool.token_a_reserve = 0) (hrb : pool.token_b_reserve = 0)
    (ha : 0 < amount_a) (hb : 0 < amount_b)
    (ha64 : amount_a < 2 ^ 64) (hb64 : amount_b < 2 ^ 64) :
    addLiquidity program_id (ps :: uta :: utb :: va :: vb :: lm :: ul :: tp :: user :: rest)
      amount_a amount_b true true true (some pool) =
    (.ok (), some { pool with
      liquidity_supply := Nat.sqrt (amount_a * amount_b)
      token_a_reserve := amount_a
      token_b_reserve := amount_b }) := by
  obtain ⟨⟨h1, h2, h3, h4, h5, h6, h7, h8, h9, h10, h11, h12, h13, h14, h15⟩,
    h16, h17, h18, h19, h20⟩ := hacc
  have hs64 : Nat.sqrt (amount_a * amount_b) < 2 ^ 64 := by
    rw [Nat.sqrt_lt']
    calc amount_a * amount_b < 2 ^ 64 * 2 ^ 64 :=
          Nat.mul_lt_mul_of_lt_of_lt ha64 hb64
    _ = (2 ^ 64) ^ 2 := by ring
  have hspos : Nat.sqrt (amount_a * amount_b) ≠ 0 := by
    rw [Ne, Nat.sqrt_eq_zero, Nat.mul_eq_zero]
    push_neg
    exact ⟨Nat.pos_iff_ne_zero.mp ha, Nat.pos_iff_ne_zero.mp hb⟩
  have hpow : (2 : ℕ) ^ 64 = 18446744073709551616 := by norm_num
  rw [hpow] at ha64 hb64 hs64
  simp [addLiquidity, commit, addLiquidityCore, sharesToMint, checkedAdd64, h1, h2, h3, h4, h5, h6, h7, h8,
    h9, h10, h11, h12, h13, h14, h15, h16, h17, h18, h19, h20, hsup, hra, hrb,
    Nat.pos_iff_ne_zero.mp ha, Nat.pos_iff_ne_zero.mp hb, ha64, hb64,
    Nat.mod_eq_of_lt hs64, hs64, hspos]

/-- C3 witness: the first deposit (100, 400) on the empty pool `pool0` mints
√(100·400) = 200 shares. -/
theorem C3_first_deposit_sqrt_witness :
    AddAccountsOk pid0 acPool acUserTokA acUserTokB acVaultA acVaultB acLiqMint
      acUserLiq acTokenProg acUser pool0 ∧
    Nat.sqrt (100 * 400) = 200 ∧
    addLiquidity pid0 addAccts 100 400 true true true (some pool0) =
      (.ok (), some { pool0 with
        liquidity_supply := 200
        token_a_reserve := 100
        token_b_reserve := 400 }) := by
  have hsq : Nat.sqrt (100 * 400) = 200 := by
    rw [show (100 * 400 : ℕ) = 200 * 200 by norm_num]
    exact Nat.sqrt_eq 200
  refine ⟨by decide, hsq, ?_⟩
  have h := C3_first_deposit_sqrt pid0 acPool acUserTokA acUserTokB acVaultA
    acVaultB acLiqMint acUserLiq acTokenProg acUser [] pool0 100 400
    (by decide) (by decide) (by decide) (by decide) (by decide) (by decide)
    (by decide) (by decide)
  rw [hsq] at h
  exact h

/-- C4 (amended): on a pool with positive supply and positive reserves, a
deposit's computed share count is
`min(⌊amount_a·S/reserve_a⌋, ⌊amount_b·S/reserve_b⌋)`; when that minimum is 0
the operation fails with `InvalidAmount`, and when it is nonzero and below
`2 ^ 64` (and no reserve/supply addition overflows), exactly that minimum is
minted and added to the supply.  The 64-bit truncation hypothesis is forced
by the source's `liquidity_to_mint as u64` cast. -/
theorem C4_subsequent_deposit_min (program_id : Nat)
    (ps uta utb va vb lm ul tp user : Account) (rest : List Account)
    (pool : PoolRecord) (amount_a amount_b : Nat)
    (hacc : AddAccountsOk program_id ps uta utb va vb lm ul tp user pool)
    (hsup : pool.liquidity_supply ≠ 0)
    (ha : 0 < amount_a) (hb : 0 < amount_b) :
    (min (amount_a * pool.liquidity_supply / pool.token_a_reserve)
         (amount_b * pool.liquidity_supply / pool.token_b_reserve) = 0 →
      addLiquidity program_id
        (ps :: uta :: utb :: va :: vb :: lm :: ul :: tp :: user :: rest)
        amount_a amount_b true true true (some pool) =
      (.error .InvalidAmount, some pool)) ∧
    (min (amount_a * pool.liquidity_supply / pool.token_a_reserve)
         (amount_b * pool.liquidity_supply / pool.token_b_reserve) ≠ 0 →
     min (amount_a * pool.liquidity_supply / pool.token_a_reserve)
         (amount_b * pool.liquidity_supply / pool.token_b_reserve) < 2 ^ 64 →
     pool.token_a_reserve + amount_a < 2 ^ 64 →
     pool.token_b_reserve + amount_b < 2 ^ 64 →
     pool.liquidity_supply +
       min (amount_a * pool.liquidity_supply / pool.token_a_reserve)
           (amount_b * pool.liquidity_supply / pool.token_b_reserve) < 2 ^ 64 →
      addLiquidity program_id
        (ps :: uta :: utb :: va :: vb :: lm :: ul :: tp :: user :: rest)
        amount_a amount_b true true true (some pool) =
      (.ok (), some { pool with
        token_a_reserve := pool.token_a_reserve + amount_a
        token_b_reserve := pool.token_b_reserve + amount_b
        liquidity_supply := pool.liquidity_supply +
          min (amount_a * pool.liquidity_supply / pool.token_a_reserve)
              (amount_b * pool.liquidity_supply / pool.token_b_reserve) })) := by
  obtain ⟨⟨h1, h2, h3, h4, h5, h6, h7, h8, h9, h10, h11, h12, h13, h14, h15⟩,
    h16, h17, h18, h19, h20⟩ := hacc
  constructor
  · intro h0
    simp [addLiquidity, commit, addLiquidityCore, sharesToMint, h1, h2, h3, h4, h5, h6, h7, h8, h9, h10,
      h11, h12, h13, h14, h15, h16, h17, h18, h19, h20, hsup,
      Nat.pos_iff_ne_zero.mp ha, Nat.pos_iff_ne_zero.mp hb, h0]
  · intro hmin hlt hoa hob hos
    have hpow : (2 : ℕ) ^ 64 = 18446744073709551616 := by norm_num
    rw [hpow] at hlt hoa hob hos
    simp [addLiquidity, commit, addLiquidityCore, sharesToMint, checkedAdd64, h1, h2, h3, h4, h5, h6, h7,
      h8, h9, h10, h11, h12, h13, h14, h15, h16, h17, h18, h19, h20, hsup,
      Nat.pos_iff_ne_zero.mp ha, Nat.pos_iff_ne_zero.mp hb, hmin,
      Nat.mod_eq_of_lt hlt, hlt, hoa, hob, hos]

/-- C4 witness: depositing (100, 50) on `poolA` (supply 1000, reserves
1000/1000) mints min(100, 50) = 50 shares. -/
theorem C4_subsequent_deposit_min_witness :
    AddAccountsOk pid0 acPool acUserTokA acUserTokB acVaultA acVaultB acLiqMint
      acUserLiq acTokenProg acUser poolA ∧
    addLiquidity pid0 addAccts 100 50 true true true (some poolA) =
      (.ok (), some { poolA with
        token_a_reserve := 1100
        token_b_reserve := 1050
        liquidity_supply := 1050 }) := by
  refine ⟨by decide, ?_⟩
  have h := (C4_subsequent_deposit_min pid0 acPool acUserTokA acUserTokB acVaultA
    acVaultB acLiqMint acUserLiq acTokenProg acUser [] poolA 100 50
    (by decide) (by decide) (by decide) (by decide)).2
    (by decide) (by decide) (by decide) (by decide) (by decide)
  exact h

/-- C4 counterexample: on the pool `poolTiny` (supply 2, reserves 1/1) a
deposit of (2⁶³, 2⁶³) has proportional minimum 2⁶⁴, yet the operation
succeeds and the recorded supply is unchanged — the `as u64` cast truncates
the 128-bit share count to 0 before minting, so the shares minted are not
the minimum, and no `InvalidAmount` error is raised although the claim's
formula demands one or the other. -/
theorem C4_truncation_counterexample :
    addLiquidity pid0 addAccts (2 ^ 63) (2 ^ 63) true true true (some poolTiny) =
      (.ok (), some { poolTiny with
        token_a_reserve := 2 ^ 63 + 1
        token_b_reserve := 2 ^ 63 + 1 }) ∧
    min (2 ^ 63 * poolTiny.liquidity_supply / poolTiny.token_a_reserve)
        (2 ^ 63 * poolTiny.liquidity_supply / poolTiny.token_b_reserve) = 2 ^ 64 ∧
    ({ poolTiny with
        token_a_reserve := 2 ^ 63 + 1
        token_b_reserve := 2 ^ 63 + 1 } : PoolRecord).liquidity_supply ≠
      poolTiny.liquidity_supply + 2 ^ 64 := by
  refine ⟨rfl, rfl, by decide⟩

/-- C5: every `RemoveLiquidity` of `0 < liquidity_amount ≤ supply` on a pool
with 64-bit reserves computes the floor proportional redemption amounts
`⌊L·reserve/supply⌋` on 128-bit intermediates, fails with `InvalidAmount`
when either amount is 0, succeeds with the reserves and supply reduced by
exactly those amounts otherwise, and redeeming the whole supply leaves both
reserves and the supply at exactly 0. -/
theorem C5_remove_proportional (program_id : Nat)
    (ps ul va vb uta utb lm user tp : Account) (rest : List Account)
    (pool : PoolRecord) (liquidity_amount : Nat)
    (hacc : RemoveAccountsOk program_id ps ul va vb uta utb lm user tp)
    (hL : 0 < liquidity_amount)
    (hLS : liquidity_amount ≤ pool.liquidity_supply)
    (hra64 : pool.token_a_reserve < 2 ^ 64)
    (hrb64 : pool.token_b_reserve < 2 ^ 64) :
    (liquidity_amount * pool.token_a_reserve / pool.liquidity_supply = 0 ∨
     liquidity_amount * pool.token_b_reserve / pool.liquidity_supply = 0 →
      removeLiquidity program_id
        (ps :: ul :: va :: vb :: uta :: utb :: lm :: user :: tp :: rest)
        liquidity_amount true true true (some pool) =
      (.error .InvalidAmount, some pool)) ∧
    (liquidity_amount * pool.token_a_reserve / pool.liquidity_supply ≠ 0 →
     liquidity_amount * pool.token_b_reserve / pool.liquidity_supply ≠ 0 →
      removeLiquidity program_id
        (ps :: ul :: va :: vb :: uta :: utb :: lm :: user :: tp :: rest)
        liquidity_amount true true true (some pool) =
      (.ok (), some { pool with
        token_a_reserve := pool.token_a_reserve -
          liquidity_amount * pool.token_a_reserve / pool.liquidity_supply
        token_b_reserve := pool.token_b_reserve -
          liquidity_amount * pool.token_b_reserve / pool.liquidity_supply
        liquidity_supply := pool.liquidity_supply - liquidity_amount })) ∧
    (liquidity_amount = pool.liquidity_supply →
     liquidity_amount * pool.token_a_reserve / pool.liquidity_supply ≠ 0 →
     liquidity_amount * pool.token_b_reserve / pool.liquidity_supply ≠ 0 →
      removeLiquidity program_id
        (ps :: ul :: va :: vb :: uta :: utb :: lm :: user :: tp :: rest)
        liquidity_amount true true true (some pool) =
      (.ok (), some { pool with
        token_a_reserve := 0
        token_b_reserve := 0
        liquidity_supply := 0 })) := by
  obtain ⟨⟨h1, h2, h3, h4, h5, h6, h7, h8, h9, h10, h11, h12, h13, h14, h15⟩,
    h16⟩ := hacc
  have hS : 0 < pool.liquidity_supply := lt_of_lt_of_le hL hLS
  have hAle : liquidity_amount * pool.token_a_reserve / pool.liquidity_supply ≤
      pool.token_a_reserve := by
    calc liquidity_amount * pool.token_a_reserve / pool.liquidity_supply
        ≤ pool.liquidity_supply * pool.token_a_reserve / pool.liquidity_supply :=
          Nat.div_le_div_right (Nat.mul_le_mul_right _ hLS)
      _ = pool.token_a_reserve := Nat.mul_div_cancel_left _ hS
  have hBle : liquidity_amount * pool.token_b_reserve / pool.liquidity_supply ≤
      pool.token_b_reserve := by
    calc liquidity_amount * pool.token_b_reserve / pool.liquidity_supply
        ≤ pool.liquidity_supply * pool.token_b_reserve / pool.liquidity_supply :=
          Nat.div_le_div_right (Nat.mul_le_mul_right _ hLS)
      _ = pool.token_b_reserve := Nat.mul_div_cancel_left _ hS
  have hA64 : liquidity_amount * pool.token_a_reserve / pool.liquidity_supply <
      2 ^ 64 := lt_of_le_of_lt hAle hra64
  have hB64 : liquidity_amount * pool.token_b_reserve / pool.liquidity_supply <
      2 ^ 64 := lt_of_le_of_lt hBle hrb64
  have hpowA := Nat.mod_eq_of_lt hA64
  have hpowB := Nat.mod_eq_of_lt hB64
  have hpow : (2 : ℕ) ^ 64 = 18446744073709551616 := by norm_num
  rw [hpow] at hpowA hpowB
  have main : liquidity_amount * pool.token_a_reserve / pool.liquidity_supply ≠ 0 →
      liquidity_amount * pool.token_b_reserve / pool.liquidity_supply ≠ 0 →
      removeLiquidity program_id
        (ps :: ul :: va :: vb :: uta :: utb :: lm :: user :: tp :: rest)
        liquidity_amount true true true (some pool) =
      (.ok (), some { pool with
        token_a_reserve := pool.token_a_reserve -
          liquidity_amount * pool.token_a_reserve / pool.liquidity_supply
        token_b_reserve := pool.token_b_reserve -
          liquidity_amount * pool.token_b_reserve / pool.liquidity_supply
        liquidity_supply := pool.liquidity_supply - liquidity_amount }) := by
    intro hA0 hB0
    simp [removeLiquidity, commit, removeLiquidityCore, checkedSub, h1, h2, h3, h4, h5, h6, h7, h8, h9, h10,
      h11, h12, h13, h14, h15, h16, Nat.pos_iff_ne_zero.mp hL,
      Nat.not_lt.mpr hLS, hpowA, hpowB, hA0, hB0, hAle, hBle, hLS]
  refine ⟨?_, main, ?_⟩
  · intro h0
    rcases h0 with h0 | h0 <;>
      simp [removeLiquidity, commit, removeLiquidityCore, h1, h2, h3, h4, h5, h6, h7, h8, h9, h10, h11, h12,
        h13, h14, h15, h16, Nat.pos_iff_ne_zero.mp hL, Nat.not_lt.mpr hLS,
        hpowA, hpowB, h0]
  · intro hall hA0 hB0
    have h := main hA0 hB0
    rw [h]
    subst hall
    simp [Nat.mul_div_cancel_left _ hS, Nat.sub_self]

/-- C5 witness: redeeming all 1000 outstanding shares of `poolA` returns the
full reserves (1000, 1000) and zeroes the record. -/
theorem C5_remove_proportional_witness :
    RemoveAccountsOk pid0 acPool acUserLiq acVaultA acVaultB acUserTokA
      acUserTokB acLiqMint acUser acTokenProg ∧
    removeLiquidity pid0 removeAccts 1000 true true true (some poolA) =
      (.ok (), some { poolA with
        token_a_reserve := 0
        token_b_reserve := 0
        liquidity_supply := 0 }) := by
  refine ⟨by decide, ?_⟩
  have h := (C5_remove_proportional pid0 acPool acUserLiq acVaultA acVaultB
    acUserTokA acUserTokB acLiqMint acUser acTokenProg [] poolA 1000
    (by decide) (by decide) (by decide) (by decide) (by decide)).2.2
    (by decide) (by decide) (by decide)
  exact h

/-- Whatever a handler core computes, the shared serialize epilogue either
succeeds (having replaced the storage with the computed record) or leaves the
storage unchanged. -/
theorem commit_ok_or_st (res : Except PoolError PoolRecord)
    (st : Option PoolRecord) (r : Except PoolError Unit) (s : Option PoolRecord)
    (h : commit res st = (r, s)) : r = .ok () ∨ s = st := by
  cases res <;> (injection h with h1 h2; subst h1; subst h2; simp)

/-- Lifting of the per-handler storage lemmas through the dispatcher. -/
theorem processInstruction_ok_or_st (pid : Nat) (accounts : List Account)
    (instr : PoolInstruction) (e1 e2 e3 : Bool) (st : Option PoolRecord)
    (r : Except PoolError Unit) (s : Option PoolRecord)
    (h : processInstruction pid accounts instr e1 e2 e3 st = (r, s)) :
    r = .ok () ∨ s = st := by
  unfold processInstruction at h
  split at h
  · right
    exact (congrArg Prod.snd h).symm
  · cases instr with
    | InitializePool => exact commit_ok_or_st _ _ _ _ h
    | AddLiquidity a b => exact commit_ok_or_st _ _ _ _ h
    | RemoveLiquidity l => exact commit_ok_or_st _ _ _ _ h
    | Swap amt dir => exact commit_ok_or_st _ _ _ _ h

/-- C9: whenever any dispatched operation returns an error — a failed
account read, validation, deserialization, amount check, arithmetic check,
or external-ledger call — the persisted pool record is exactly what it was
before the operation: every handler serializes the record only after its
last fallible step. -/
theorem C9_error_leaves_record (pid : Nat) (accounts : List Account)
    (instr : PoolInstruction) (e1 e2 e3 : Bool) (st : Option PoolRecord)
    (r : Except PoolError Unit) (s : Option PoolRecord) (err : PoolError)
    (h : processInstruction pid accounts instr e1 e2 e3 st = (r, s))
    (herr : r = .error err) : s = st := by
  rcases processInstruction_ok_or_st pid accounts instr e1 e2 e3 st r s h with
    hok | hst
  · rw [herr] at hok
    exact Except.noConfusion hok
  · exact hst

/-- C9 witness: an erroring invocation (empty account list) leaves the
stored record `poolA` untouched. -/
theorem C9_error_leaves_record_witness :
    processInstruction pid0 [] (.RemoveLiquidity 5) true true true (some poolA) =
      (.error .NotEnoughAccountKeys, some poolA) ∧
    (some poolA : Option PoolRecord) = some poolA :=
  ⟨rfl, C9_error_leaves_record pid0 [] (.RemoveLiquidity 5) true true true
    (some poolA) (.error .NotEnoughAccountKeys) (some poolA)
    .NotEnoughAccountKeys rfl rfl⟩

/-- C1: evaluation of the embedded `swap` at the claim's own worked example —
reserves (1000, 1000), `amount_in` = 100, direction `a_to_b`.  The fee
computation gives `amount_in_after_fee` = 99 as claimed, but the code
divides the invariant by `R_in × amount_in_after_fee` (99000), so its
`amount_out` is 1000 − ⌊1000000/99000⌋ = 990 and the persisted reserves
become (1100, 10).  The claimed formula
`R_out − ⌊R_in·R_out/(R_in + amount_in_after_fee)⌋` yields yet another
value, 1000 − ⌊1000000/1099⌋ = 1000 − 909 = 91 — the claim's quoted 90
(via "⌊1000000/1099⌋ = 910") is off by one even against its own formula. -/
theorem C1_swap_output_eval :
    swap pid0 swapAccts 100 true true true (some poolA) =
      (.ok (), some { poolA with token_a_reserve := 1100, token_b_reserve := 10 }) ∧
    amountInAfterFee 100 = 99 ∧
    poolA.token_b_reserve - poolA.token_a_reserve * poolA.token_b_reserve /
      (poolA.token_a_reserve + amountInAfterFee 100) = 91 ∧
    swapDivisor poolA.token_a_reserve 100 = 99000 := by
  exact ⟨rfl, by decide, by decide, by decide⟩

/-- C2: at the same concrete swap, the constant-product inequality
`(R_in + amount_in_after_fee) × (R_out − amount_out) ≥ R_in × R_out` fails —
with the code's `amount_out` = 990 the left side is 1099 × 10 = 10990 <
1000000 — and the persisted product strictly decreases, from 1000 × 1000 to
1100 × 10. -/
theorem C2_product_not_preserved :
    swap pid0 swapAccts 100 true true true (some poolA) =
      (.ok (), some { poolA with token_a_reserve := 1100, token_b_reserve := 10 }) ∧
    (poolA.token_a_reserve + amountInAfterFee 100) * (poolA.token_b_reserve - 990) <
      poolA.token_a_reserve * poolA.token_b_reserve ∧
    1100 * 10 < poolA.token_a_reserve * poolA.token_b_reserve := by
  exact ⟨rfl, by decide, by decide⟩

/-- C6 (amended): `initialize_pool` on non-empty storage never writes and
never succeeds, and fails with `AlreadyInitialized` exactly when all the
account validations (which the source runs first) pass; when a validation
fails the error is that validation's (`InvalidAccount`/`InvalidAmount`)
instead. -/
theorem C6_already_initialized (pid : Nat)
    (ps auth ma mb va vb lm tp : Account) (rest : List Account) (r : PoolRecord) :
    (∀ accounts : List Account, (initPool pid accounts (some r)).2 = some r) ∧
    (InitAccountChecksOk pid ps auth ma mb va vb tp →
      initPool pid (ps :: auth :: ma :: mb :: va :: vb :: lm :: tp :: rest)
        (some r) = (.error .AlreadyInitialized, some r)) := by
  constructor
  · intro accounts
    rcases hc : initPoolCore pid accounts (some r) with e | pool
    · simp [initPool, commit, hc]
    · exfalso
      revert hc
      unfold initPoolCore
      repeat' split
      all_goals intro hc
      all_goals first
      | exact Except.noConfusion hc
      | simp_all
  · intro hok
    obtain ⟨g1, g2, g3, g4, g5, g6, g7, g8, g9, g10, g11⟩ := hok
    rcases g2 with g2 | g2 <;>
      simp [initPool, commit, initPoolCore, g1, g2, g3, g4, g5, g6, g7, g8, g9,
        g10, g11]

/-- C6 witness: on `initAccts` (all validations passing) with `poolA`
already stored, the result is `AlreadyInitialized` and the stored record is
untouched. -/
theorem C6_already_initialized_witness :
    InitAccountChecksOk pid0 acPool acAuth acMintA acMintB acVaultA acVaultB
      acTokenProg ∧
    initPool pid0 initAccts (some poolA) = (.error .AlreadyInitialized, some poolA) :=
  ⟨by decide,
   (C6_already_initialized pid0 acPool acAuth acMintA acMintB acVaultA acVaultB
      acLiqMint acTokenProg [] poolA).2 (by decide)⟩

/-- C6 counterexample: an Initialize invocation whose pool account is not
writable, on non-empty storage, fails with `InvalidAccount` — not
`AlreadyInitialized` as the claim states for every such invocation (the
emptiness check runs only after the account validations). -/
theorem C6_not_always_already_initialized :
    initPool pid0 ({ acPool with is_writable := false } :: acAuth :: acMintA ::
        acMintB :: acVaultA :: acVaultB :: acLiqMint :: acTokenProg :: [])
      (some poolA) = (.error .InvalidAccount, some poolA) ∧
    PoolError.InvalidAccount ≠ PoolError.AlreadyInitialized := by
  exact ⟨rfl, by decide⟩

/-- C7 (amended): `add_liquidity`, `remove_liquidty` and `swap` each fail
with `Unauthorized` when the user's signer flag is unset and the
writability/ownership checks that precede the signer check pass — for every
storage content and every external-call outcome, i.e. before the pool record
is read and before any external-ledger request; `initialize_pool`, however,
takes no user account and performs no signer check at all. -/
theorem C7_unsigned_unauthorized :
    (∀ (pid : Nat) (ps uta utb va vb lm ul tp user : Account)
       (rest : List Account) (a b : Nat) (e1 e2 e3 : Bool)
       (st : Option PoolRecord),
      AddPreSignerOk pid ps uta utb va vb lm ul tp →
      user.is_signer = false →
      addLiquidity pid (ps :: uta :: utb :: va :: vb :: lm :: ul :: tp :: user :: rest)
        a b e1 e2 e3 st = (.error .Unauthorized, st)) ∧
    (∀ (pid : Nat) (ps ul va vb uta utb lm user tp : Account)
       (rest : List Account) (l : Nat) (e1 e2 e3 : Bool)
       (st : Option PoolRecord),
      RemovePreSignerOk pid ps ul va vb uta utb lm tp →
      user.is_signer = false →
      removeLiquidity pid (ps :: ul :: va :: vb :: uta :: utb :: lm :: user :: tp :: rest)
        l e1 e2 e3 st = (.error .Unauthorized, st)) ∧
    (∀ (pid : Nat) (ps uit uot iv ov tp user : Account)
       (rest : List Account) (amt : Nat) (dir e1 e2 : Bool)
       (st : Option PoolRecord),
      SwapPreSignerOk pid ps uit uot iv ov tp →
      user.is_signer = false →
      swap pid (ps :: uit :: uot :: iv :: ov :: tp :: user :: rest)
        amt dir e1 e2 st = (.error .Unauthorized, st)) := by
  refine ⟨?_, ?_, ?_⟩
  · intro pid ps uta utb va vb lm ul tp user rest a b e1 e2 e3 st hpre hsig
    obtain ⟨h1, h2, h3, h4, h5, h6, h7, h8, h9, h10, h11, h12, h13, h14, h15⟩ := hpre
    simp [addLiquidity, commit, addLiquidityCore, h1, h2, h3, h4, h5, h6, h7,
      h8, h9, h10, h11, h12, h13, h14, h15, hsig]
  · intro pid ps ul va vb uta utb lm user tp rest l e1 e2 e3 st hpre hsig
    obtain ⟨h1, h2, h3, h4, h5, h6, h7, h8, h9, h10, h11, h12, h13, h14, h15⟩ := hpre
    simp [removeLiquidity, commit, removeLiquidityCore, h1, h2, h3, h4, h5, h6,
      h7, h8, h9, h10, h11, h12, h13, h14, h15, hsig]
  · intro pid ps uit uot iv ov tp user rest amt dir e1 e2 st hpre hsig
    obtain ⟨h1, h2, h3, h4, h5, h6, h7, h8, h9, h10, h11⟩ := hpre
    simp [swap, commit, swapCore, h1, h2, h3, h4, h5, h6, h7, h8, h9, h10, h11,
      hsig]

/-- C7 witness: a swap whose user account has the signer flag unset fails
with `Unauthorized` with the stored record untouched. -/
theorem C7_unsigned_unauthorized_witness :
    SwapPreSignerOk pid0 acPool acUserTokA acUserTokB acVaultA acVaultB
      acTokenProg ∧
    ({ acUser with is_signer := false } : Account).is_signer = false ∧
    swap pid0 (acPool :: acUserTokA :: acUserTokB :: acVaultA :: acVaultB ::
        acTokenProg :: { acUser with is_signer := false } :: [])
      100 true true true (some poolA) = (.error .Unauthorized, some poolA) :=
  ⟨by decide, rfl,
   C7_unsigned_unauthorized.2.2 pid0 acPool acUserTokA acUserTokB acVaultA
     acVaultB acTokenProg { acUser with is_signer := false } [] 100 true true
     true (some poolA) (by decide) rfl⟩

/-- C7 counterexample: `initialize_pool` succeeds on a fully valid account
list in which every account — including the would-be authority — has the
signer flag unset; no operation-blocking `Unauthorized` occurs because this
handler never checks a signer. -/
theorem C7_init_needs_no_signer :
    initPool pid0 initAccts none = (.ok (), some pool0) ∧
    initAccts.all (fun a => !a.is_signer) = true := by
  exact ⟨rfl, rfl⟩

/-- C8: supplying exactly the 8 accounts of the Initialize account-list
contract does not reach the handler: the dispatcher prelude
(src/lib.rs:54-64) performs nine account reads before decoding the
instruction (eight of them `?`-propagated), so with 8 accounts
`process_instruction` fails with the account-exhaustion error
`NotEnoughAccountKeys` for every instruction, Initialize included. -/
theorem C8_eight_accounts_insufficient :
    processInstruction pid0 initAccts .InitializePool true true true none =
      (.error .NotEnoughAccountKeys, none) ∧
    initAccts.length = 8 ∧
    initPool pid0 initAccts none = (.ok (), some pool0) := by
  exact ⟨rfl, rfl, rfl⟩

/-- C10: the swap's `u128` division `invariant / new_input_reserve`
(src/lib.rs:469) is unguarded, and its divisor `new_input_reserve = R_in ×
amount_in_after_fee` is 0 both for `amount_in` = 1 (the 30-bp fee floors it
to 0) and for a zero input reserve; on such inputs the embedded computation
returns no error — with `Nat` division yielding 0 at the zero divisor, both
swaps below succeed and drain the entire output reserve (the source, whose
`u128` division panics on a zero divisor, aborts the program instead of
returning an error value). -/
theorem C10_unguarded_zero_divisor :
    swapDivisor poolA.token_a_reserve 1 = 0 ∧
    amountInAfterFee 1 = 0 ∧
    swapDivisor 0 100 = 0 ∧
    swap pid0 swapAccts 1 true true true (some poolA) =
      (.ok (), some { poolA with token_a_reserve := 1001, token_b_reserve := 0 }) ∧
    swap pid0 swapAccts 100 true true true (some poolB) =
      (.ok (), some { poolB with token_a_reserve := 100, token_b_reserve := 0 }) := by
  exact ⟨rfl, rfl, rfl, rfl, rfl⟩
